import Mathlib

/-!
Shallow embedding of `generate_icons.py` (WiFiMenuBar icon generation script).

The script renders WiFi status icons with PIL: `create_wifi_icon` builds an
RGBA canvas and issues drawing commands (arcs, an ellipse dot, error lines);
`generate_icon_set`, `generate_app_icons` and `main` enumerate the files to
write.  We model a rendered image as the canvas metadata (dimensions,
background) together with the ordered list of drawing commands issued on it;
rasterization itself happens inside PIL, outside this repository.  Pixel
coordinates that Python computes with `//` stay `Nat` division; float
expressions (`0.4 * actual_size` etc.) are modelled exactly over `ℚ`.
-/

/-- An RGBA color, as the 4-tuples used in the script. -/
structure RGBA where
  r : Nat
  g : Nat
  b : Nat
  a : Nat
deriving DecidableEq, Repr

/-- A drawing command issued on an `ImageDraw` object.  `arc` and `ellipse`
carry their bounding box `[left, top, right, bottom]`; `arc` also carries its
start/end angles in degrees; `line` carries its two endpoints. -/
inductive DrawCmd where
  | arc (left top right bottom : ℚ) (startAngle endAngle : ℚ) (fill : RGBA) (width : Nat)
  | ellipse (left top right bottom : ℚ) (fill : RGBA)
  | line (x1 y1 x2 y2 : ℚ) (fill : RGBA) (width : Nat)
deriving DecidableEq, Repr

/-- A rendered image: the `Image.new` parameters (mode string, dimensions,
background fill) plus the drawing commands applied to it, in order. -/
structure Canvas where
  mode : String
  width : Nat
  height : Nat
  background : RGBA
  cmds : List DrawCmd
deriving DecidableEq, Repr

/-- The color chosen by the `if/elif` chain on `status`
(`generate_icons.py` lines 34-48). -/
def statusColor (status : String) : RGBA :=
  if status = "connected" then ⟨0, 0, 0, 255⟩
  else if status = "disconnected" then ⟨128, 128, 128, 255⟩
  else if status = "error" then ⟨255, 0, 0, 255⟩
  else if status = "connecting" then ⟨0, 100, 255, 255⟩
  else ⟨128, 128, 128, 255⟩

/-- The arc count chosen by the same `if/elif` chain on `status`
(`generate_icons.py` lines 34-48). -/
def statusArcCount (status : String) : Nat :=
  if status = "connected" then 3
  else if status = "disconnected" then 1
  else if status = "error" then 3
  else if status = "connecting" then 2
  else 1

/-- Model of `create_wifi_icon(size, status, scale)` (`generate_icons.py` lines 12-89).
Python `//` is `Nat` division; Python floats `0.4`, `0.3`, `0.2` are the
rationals `2/5`, `3/10`, `1/5`. -/
def create_wifi_icon (size : Nat) (status : String) (scale : Nat) : Canvas :=
  let actual_size := size * scale
  let center_x : Nat := actual_size / 2
  let center_y : Nat := actual_size / 2
  let radius : ℚ := (actual_size : ℚ) * (2/5)
  let color := statusColor status
  let arc_count := statusArcCount status
  let line_width := max 1 (actual_size / 16)
  let arcCmds : List DrawCmd :=
    (List.range' 1 arc_count).map (fun i : ℕ =>
      let arc_radius : ℚ := radius * (i : ℚ) / 3
      DrawCmd.arc ((center_x : ℚ) - arc_radius) ((center_y : ℚ) - arc_radius)
        ((center_x : ℚ) + arc_radius) ((center_y : ℚ) + arc_radius)
        225 315 color line_width)
  let dotCmds : List DrawCmd :=
    if status ≠ "disabled" then
      let dot_radius : Nat := max 2 (actual_size / 20)
      [DrawCmd.ellipse ((center_x : ℚ) - (dot_radius : ℚ)) ((center_y : ℚ) - (dot_radius : ℚ))
        ((center_x : ℚ) + (dot_radius : ℚ)) ((center_y : ℚ) + (dot_radius : ℚ)) color]
    else []
  let errCmds : List DrawCmd :=
    if status = "error" then
      let error_size : ℚ := (actual_size : ℚ) * (3/10)
      let error_x : ℚ := (center_x : ℚ) + (actual_size : ℚ) * (1/5)
      let error_y : ℚ := (center_y : ℚ) - (actual_size : ℚ) * (1/5)
      [DrawCmd.line (error_x - error_size/2) (error_y - error_size/2)
         (error_x + error_size/2) (error_y + error_size/2) ⟨255, 0, 0, 255⟩ line_width,
       DrawCmd.line (error_x + error_size/2) (error_y - error_size/2)
         (error_x - error_size/2) (error_y + error_size/2) ⟨255, 0, 0, 255⟩ line_width]
    else []
  { mode := "RGBA", width := actual_size, height := actual_size,
    background := ⟨0, 0, 0, 0⟩, cmds := arcCmds ++ dotCmds ++ errCmds }

/-- Whether a command is a `draw.arc` call. -/
def DrawCmd.isArc : DrawCmd → Bool
  | .arc .. => true
  | _ => false

/-- Whether a command is a `draw.line` call. -/
def DrawCmd.isLine : DrawCmd → Bool
  | .line .. => true
  | _ => false

/-- Whether a command is a `draw.ellipse` call. -/
def DrawCmd.isEllipse : DrawCmd → Bool
  | .ellipse .. => true
  | _ => false

/-- The fill color passed to a drawing command. -/
def DrawCmd.fillColor : DrawCmd → RGBA
  | .arc _ _ _ _ _ _ f _ => f
  | .ellipse _ _ _ _ f => f
  | .line _ _ _ _ f _ => f

/-- The stroke width passed to a drawing command (`ellipse` here is the
filled dot, which takes no width argument). -/
def DrawCmd.strokeWidth : DrawCmd → Nat
  | .arc _ _ _ _ _ _ _ w => w
  | .ellipse _ _ _ _ _ => 0
  | .line _ _ _ _ _ w => w

/-- The x-coordinate of a command's geometric center (bounding-box midpoint
for `arc`/`ellipse`, segment midpoint for `line`). -/
def DrawCmd.xmid : DrawCmd → ℚ
  | .arc l _ r _ _ _ _ _ => (l + r) / 2
  | .ellipse l _ r _ _ => (l + r) / 2
  | .line x1 _ x2 _ _ _ => (x1 + x2) / 2

/-- The y-coordinate of a command's geometric center. -/
def DrawCmd.ymid : DrawCmd → ℚ
  | .arc _ t _ b _ _ _ _ => (t + b) / 2
  | .ellipse _ t _ b _ => (t + b) / 2
  | .line _ y1 _ y2 _ _ => (y1 + y2) / 2

/-- The squared Euclidean length of a `line` command (0 for other commands). -/
def DrawCmd.lenSq : DrawCmd → ℚ
  | .line x1 y1 x2 y2 _ _ => (x2 - x1) ^ 2 + (y2 - y1) ^ 2
  | _ => 0

/-- The precondition Pillow's rasterizer imposes on a drawing command:
`arc` and `ellipse` require an ordered bounding box (`x1 >= x0` and
`y1 >= y0`, else `ValueError`); `line` accepts any endpoints.  A command
satisfying this never raises in the backend. -/
def DrawCmd.backendSafe : DrawCmd → Prop
  | .arc l t r b _ _ _ _ => l ≤ r ∧ t ≤ b
  | .ellipse l t r b _ => l ≤ r ∧ t ≤ b
  | .line _ _ _ _ _ _ => True

/-- The arc commands of a canvas, in order. -/
def arcsOf (c : Canvas) : List DrawCmd := c.cmds.filter (·.isArc)

/-- The line commands of a canvas, in order. -/
def linesOf (c : Canvas) : List DrawCmd := c.cmds.filter (·.isLine)

/-- Model of `generate_icon_set(base_path, icon_name, status, sizes)`
(`generate_icons.py` lines 91-113): the list of `(file name, image)` pairs
written, in order.  All writes target the same output directory, so we record
the file name relative to it. -/
def generate_icon_set (icon_name : String) (status : String) (sizes : List Nat) :
    List (String × Canvas) :=
  sizes.flatMap (fun size =>
    [(icon_name ++ "-" ++ toString size ++ ".png", create_wifi_icon size status 1),
     (icon_name ++ "-" ++ toString size ++ "@2x.png", create_wifi_icon size status 2)] ++
    (if size ≤ 32 then
      [(icon_name ++ "-" ++ toString size ++ "@3x.png", create_wifi_icon size status 3)]
     else []))

/-- The list `app_icon_sizes` (`generate_icons.py` line 122). -/
def app_icon_sizes : List Nat := [16, 32, 128, 256, 512]

/-- Model of `generate_app_icons(base_path)` (`generate_icons.py` lines 115-131). -/
def generate_app_icons : List (String × Canvas) :=
  app_icon_sizes.flatMap (fun size =>
    [("app-icon-" ++ toString size ++ ".png", create_wifi_icon size "connected" 1),
     ("app-icon-" ++ toString size ++ "@2x.png", create_wifi_icon size "connected" 2)])

/-- The list `status_bar_sizes` (`generate_icons.py` line 148). -/
def status_bar_sizes : List Nat := [16, 18, 20, 22]

/-- The `statuses` dict (`generate_icons.py` lines 151-156), in insertion
order, as iterated by `main`. -/
def statuses : List (String × String) :=
  [("wifi-connected", "connected"),
   ("wifi-disconnected", "disconnected"),
   ("wifi-error", "error"),
   ("wifi-connecting", "connecting")]

/-- The status-bar file set produced by the first block of `main`
(`generate_icons.py` lines 144-160). -/
def status_bar_files : List (String × Canvas) :=
  statuses.flatMap (fun p => generate_icon_set p.1 p.2 status_bar_sizes)

/-- Model of `main()` (`generate_icons.py` lines 133-166): the `(file name, image)`
pairs written for a given pair of CLI flags, in order.  The status-bar block
runs when `--app-icon-only` is absent; the app-icon block runs when
`--status-bar-only` is absent. -/
def main_files (status_bar_only app_icon_only : Bool) : List (String × Canvas) :=
  (if ¬ app_icon_only then status_bar_files else []) ++
  (if ¬ status_bar_only then generate_app_icons else [])

/-- The two lines printed by the `except ImportError` handler
(`generate_icons.py` lines 172-173): a diagnostic plus a remediation hint. -/
def remediation_lines : List String :=
  ["错误: 需要安装Pillow库", "请运行: pip install Pillow"]

/-- Observable outcome of one process run: the exit status, the lines printed
to stdout, and whether the interpreter aborted with an uncaught-exception
traceback (printed to stderr). -/
structure ProcResult where
  exitCode : Nat
  stdout : List String
  uncaughtTraceback : Bool
deriving DecidableEq, Repr

/-- The stdout of a successful default run of `main()` with the default
output directory (`generate_icons.py` lines 145, 159, 163, 166). -/
def main_stdout : List String :=
  ["生成状态栏图标...",
   "  生成 wifi-connected 图标...",
   "  生成 wifi-disconnected 图标...",
   "  生成 wifi-error 图标...",
   "  生成 wifi-connecting 图标...",
   "生成应用图标...",
   "图标生成完成！输出目录: ./icons"]

/-- The outcome the `__main__` guard's `except ImportError` branch would
produce if it handled a missing-PIL import (`generate_icons.py` lines
169-174): print the diagnostic and the remediation hint, then `sys.exit(1)`. -/
def main_guard_import_error_outcome : ProcResult :=
  { exitCode := 1, stdout := remediation_lines, uncaughtTraceback := false }

/-- One default-flag run of the script as a Python module, parameterized by
whether the PIL package is importable.  Module-level statements run top to
bottom: `from PIL import Image, ImageDraw` at line 9 executes before the
`__main__` guard at lines 168-176.  When PIL is missing, line 9 raises
`ImportError` with no enclosing handler, so the interpreter prints a
traceback to stderr and exits with status 1; the guard's `try/except`
(which would print `remediation_lines`) is never reached.  When PIL is
present, the guard's `import PIL` succeeds and `main()` runs to completion,
exiting 0. -/
def run_program (pil_available : Bool) : ProcResult :=
  if pil_available then
    { exitCode := 0, stdout := main_stdout, uncaughtTraceback := false }
  else
    { exitCode := 1, stdout := [], uncaughtTraceback := true }

/-- The arc commands of any rendered icon, in closed form: one arc per
`i ∈ range(1, arc_count + 1)`, with bounding box centered on
`(actual_size // 2, actual_size // 2)` and half-width
`(actual_size * 0.4) * i / 3`. -/
theorem arcsOf_create_wifi_icon (size : ℕ) (status : String) (scale : ℕ) :
    arcsOf (create_wifi_icon size status scale) =
      (List.range' 1 (statusArcCount status)).map (fun i : ℕ =>
        DrawCmd.arc
          (((size * scale / 2 : ℕ) : ℚ) - ((size * scale : ℕ) : ℚ) * (2/5) * (i : ℚ) / 3)
          (((size * scale / 2 : ℕ) : ℚ) - ((size * scale : ℕ) : ℚ) * (2/5) * (i : ℚ) / 3)
          (((size * scale / 2 : ℕ) : ℚ) + ((size * scale : ℕ) : ℚ) * (2/5) * (i : ℚ) / 3)
          (((size * scale / 2 : ℕ) : ℚ) + ((size * scale : ℕ) : ℚ) * (2/5) * (i : ℚ) / 3)
          225 315 (statusColor status) (max 1 (size * scale / 16))) := by
  simp only [arcsOf, create_wifi_icon, List.filter_append]
  rw [List.filter_eq_self.mpr]
  · have hdot : ∀ l : List DrawCmd,
        (∀ c ∈ l, c.isArc = false) → l.filter (·.isArc) = [] := by
      intro l hl
      exact List.filter_eq_nil_iff.mpr (by intro c hc; simp [hl c hc])
    rw [hdot _ ?hd, hdot _ ?he, List.append_nil, List.append_nil]
    case hd =>
      intro c hc
      split at hc
      · simp only [List.mem_singleton] at hc
        subst hc; rfl
      · simp at hc
    case he =>
      intro c hc
      split at hc
      · simp only [List.mem_cons, List.not_mem_nil, or_false] at hc
        rcases hc with rfl | rfl <;> rfl
      · simp at hc
  · intro c hc
    obtain ⟨i, _, rfl⟩ := List.mem_map.mp hc
    rfl

/-- C1: the claim says a missing imaging library is reported with a
human-readable message and remediation hint before exiting with status 1,
on every run in which the import fails.  The code contradicts this: the
module-level `from PIL import Image, ImageDraw` (line 9) raises before the
`__main__` guard's `try/except` (lines 169-174) can run, so the run exits
with status 1 via an uncaught traceback and the remediation lines are never
printed. -/
theorem c1_missing_pil_dies_without_hint :
    run_program false =
      { exitCode := 1, stdout := [], uncaughtTraceback := true } ∧
    run_program false ≠ main_guard_import_error_outcome ∧
    ∀ line ∈ (run_program false).stdout, line ∉ remediation_lines :=
  ⟨rfl, by decide, by intro line hl; simp [run_program] at hl⟩

/-- C5: for every baseSize > 0 and scale in {1,2,3} and every status, the
rendered bitmap is a square RGBA image of side baseSize × scale with a
fully transparent background. -/
theorem c5_canvas_dimensions (size scale : ℕ) (status : String)
    (_hsize : 0 < size) (_hscale : scale = 1 ∨ scale = 2 ∨ scale = 3) :
    (create_wifi_icon size status scale).mode = "RGBA" ∧
    (create_wifi_icon size status scale).width = size * scale ∧
    (create_wifi_icon size status scale).height = size * scale ∧
    (create_wifi_icon size status scale).background = ⟨0, 0, 0, 0⟩ :=
  ⟨rfl, rfl, rfl, rfl⟩

/-- Witness for C5 at baseSize 16, status connected, scale 1. -/
theorem c5_canvas_dimensions_witness :
    (create_wifi_icon 16 "connected" 1).mode = "RGBA" ∧
    (create_wifi_icon 16 "connected" 1).width = 16 * 1 ∧
    (create_wifi_icon 16 "connected" 1).height = 16 * 1 ∧
    (create_wifi_icon 16 "connected" 1).background = ⟨0, 0, 0, 0⟩ :=
  c5_canvas_dimensions 16 1 "connected" (by decide) (Or.inl rfl)

/-- C8: rendering is deterministic — the renderer is a pure function of
`(baseSize, status, scale)`, so two invocations on identical inputs produce
identical canvases (hence byte-identical serialized images). -/
theorem c8_deterministic (size₁ size₂ : ℕ) (status₁ status₂ : String)
    (scale₁ scale₂ : ℕ)
    (hs : size₁ = size₂) (hst : status₁ = status₂) (hsc : scale₁ = scale₂) :
    create_wifi_icon size₁ status₁ scale₁ = create_wifi_icon size₂ status₂ scale₂ := by
  subst hs; subst hst; subst hsc; rfl

/-- Witness for C8 at baseSize 16, status connected, scale 2. -/
theorem c8_deterministic_witness :
    create_wifi_icon 16 "connected" 2 = create_wifi_icon 16 "connected" 2 :=
  c8_deterministic 16 16 "connected" "connected" 2 2 rfl rfl rfl

/-- C2: for every baseSize > 0 and scale in {1,2,3}, the stroke color and
concentric-arc count are determined by status exactly as the claimed table:
connected → black/3, disconnected → gray/1, error → red/3,
connecting → blue/2, anything else → gray/1.  The fallback is the total
`else` branch of the `if/elif` chain, so it never raises. -/
theorem c2_color_and_arc_count (size scale : ℕ) (status : String)
    (_hsize : 0 < size) (_hscale : scale = 1 ∨ scale = 2 ∨ scale = 3) :
    (arcsOf (create_wifi_icon size status scale)).length =
      (if status = "connected" then 3
       else if status = "disconnected" then 1
       else if status = "error" then 3
       else if status = "connecting" then 2
       else 1) ∧
    ∀ cmd ∈ arcsOf (create_wifi_icon size status scale),
      cmd.fillColor =
        (if status = "connected" then (⟨0, 0, 0, 255⟩ : RGBA)
         else if status = "disconnected" then ⟨128, 128, 128, 255⟩
         else if status = "error" then ⟨255, 0, 0, 255⟩
         else if status = "connecting" then ⟨0, 100, 255, 255⟩
         else ⟨128, 128, 128, 255⟩) := by
  rw [arcsOf_create_wifi_icon]
  constructor
  · simp only [List.length_map, List.length_range']
    rfl
  · intro cmd hc
    obtain ⟨i, _, rfl⟩ := List.mem_map.mp hc
    rfl

/-- Witness for C2: instantiating at baseSize 16, scale 1, an unrecognized
status exercises the gray single-arc fallback. -/
theorem c2_color_and_arc_count_witness :
    (arcsOf (create_wifi_icon 16 "bogus" 1)).length = 1 ∧
    ∀ cmd ∈ arcsOf (create_wifi_icon 16 "bogus" 1),
      cmd.fillColor = (⟨128, 128, 128, 255⟩ : RGBA) := by
  have h := c2_color_and_arc_count 16 1 "bogus" (by decide) (Or.inl rfl)
  constructor
  · have h1 := h.1
    simpa using h1
  · intro cmd hc
    have h2 := h.2 cmd hc
    simpa using h2

/-- C6: each arc stroke `i` (for `i` from 1 to the status's arc count) is
drawn with a bounding box centered at `(actual_size // 2, actual_size // 2)`
(Python integer division, as in the code) with half-width — the arc radius —
`(0.4 × actualSize) × i / 3`, spanning 225° to 315°, in the status color
with stroke width `max(1, actualSize // 16)`; and the arc radius is strictly
increasing in `i`. -/
theorem c6_arc_geometry (size scale : ℕ) (status : String)
    (hsize : 0 < size) (hscale : scale = 1 ∨ scale = 2 ∨ scale = 3) :
    (arcsOf (create_wifi_icon size status scale) =
      (List.range' 1 (statusArcCount status)).map (fun i : ℕ =>
        DrawCmd.arc
          (((size * scale / 2 : ℕ) : ℚ) - ((size * scale : ℕ) : ℚ) * (2/5) * (i : ℚ) / 3)
          (((size * scale / 2 : ℕ) : ℚ) - ((size * scale : ℕ) : ℚ) * (2/5) * (i : ℚ) / 3)
          (((size * scale / 2 : ℕ) : ℚ) + ((size * scale : ℕ) : ℚ) * (2/5) * (i : ℚ) / 3)
          (((size * scale / 2 : ℕ) : ℚ) + ((size * scale : ℕ) : ℚ) * (2/5) * (i : ℚ) / 3)
          225 315 (statusColor status) (max 1 (size * scale / 16)))) ∧
    (∀ cmd ∈ arcsOf (create_wifi_icon size status scale),
      cmd.xmid = ((size * scale / 2 : ℕ) : ℚ) ∧
      cmd.ymid = ((size * scale / 2 : ℕ) : ℚ) ∧
      cmd.strokeWidth = max 1 (size * scale / 16)) ∧
    (∀ i j : ℕ, i < j →
      ((size * scale : ℕ) : ℚ) * (2/5) * (i : ℚ) / 3 <
        ((size * scale : ℕ) : ℚ) * (2/5) * (j : ℚ) / 3) := by
  refine ⟨arcsOf_create_wifi_icon size status scale, ?_, ?_⟩
  · intro cmd hc
    rw [arcsOf_create_wifi_icon] at hc
    obtain ⟨i, _, rfl⟩ := List.mem_map.mp hc
    refine ⟨?_, ?_, rfl⟩ <;>
      · simp only [DrawCmd.xmid, DrawCmd.ymid]
        ring
  · intro i j hij
    have hpos : (0 : ℚ) < ((size * scale : ℕ) : ℚ) * (2/5) := by
      have h1 : 0 < size * scale := by
        rcases hscale with rfl | rfl | rfl <;> omega
      positivity
    have hij' : (i : ℚ) < (j : ℚ) := by exact_mod_cast hij
    have := mul_lt_mul_of_pos_left hij' hpos
    linarith

/-- Witness for C6 at baseSize 16, status connected, scale 1: the claimed
arc-radius strict monotonicity, extracted after applying the theorem. -/
theorem c6_arc_geometry_witness :
    ((16 * 1 : ℕ) : ℚ) * (2/5) * ((1 : ℕ) : ℚ) / 3 <
      ((16 * 1 : ℕ) : ℚ) * (2/5) * ((2 : ℕ) : ℚ) / 3 :=
  (c6_arc_geometry 16 1 "connected" (by decide) (Or.inl rfl)).2.2 1 2 (by decide)

/-- Every drawing command the renderer issues, at every input, has an
ordered bounding box: the arc half-widths and the dot radius are
nonnegative, so `left ≤ right` and `top ≤ bottom` always hold. -/
theorem create_wifi_icon_backendSafe (size : ℕ) (status : String) (scale : ℕ) :
    ∀ cmd ∈ (create_wifi_icon size status scale).cmds, cmd.backendSafe := by
  intro cmd hc
  simp only [create_wifi_icon, List.mem_append] at hc
  rcases hc with (hc | hc) | hc
  · obtain ⟨i, _, rfl⟩ := List.mem_map.mp hc
    have hr : (0 : ℚ) ≤ ((size * scale : ℕ) : ℚ) * (2/5) * (i : ℚ) / 3 := by positivity
    exact ⟨by linarith, by linarith⟩
  · split at hc
    · simp only [List.mem_singleton] at hc
      subst hc
      have hdr : (0 : ℚ) ≤ ((max 2 (size * scale / 20) : ℕ) : ℚ) := by positivity
      exact ⟨by linarith, by linarith⟩
    · simp at hc
  · split at hc
    · simp only [List.mem_cons, List.not_mem_nil, or_false] at hc
      rcases hc with rfl | rfl <;> trivial
    · simp at hc

/-- C9: for the degenerate input baseSize = 0 the renderer still completes
(it is a total function in this embedding, issuing the same command shapes)
and returns a 0 × 0 bitmap; every command it issues satisfies the backend
precondition, so the zero-radius primitives do not crash. -/
theorem c9_degenerate_size (status : String) (scale : ℕ) :
    (create_wifi_icon 0 status scale).width = 0 ∧
    (create_wifi_icon 0 status scale).height = 0 ∧
    ∀ cmd ∈ (create_wifi_icon 0 status scale).cmds, cmd.backendSafe :=
  ⟨by simp [create_wifi_icon], by simp [create_wifi_icon],
   create_wifi_icon_backendSafe 0 status scale⟩

/-- Witness for C9 at status connected, scale 1: the degenerate canvas is
0 × 0 and its first command (the single gray arc is absent here — connected
gives three arcs of radius 0) is backend-safe. -/
theorem c9_degenerate_size_witness :
    (create_wifi_icon 0 "connected" 1).width = 0 ∧
    (create_wifi_icon 0 "connected" 1).height = 0 :=
  ⟨(c9_degenerate_size "connected" 1).1, (c9_degenerate_size "connected" 1).2.1⟩

/-- C10: a status string outside the five recognized values renders a
bitmap identical to "disconnected" (same gray color, single arc, center
dot, no overlay); the status "disabled" is the one exception — it alone
suppresses the filled center dot (the `if status != 'disabled'` guard at
line 66), so its bitmap differs from "disconnected". -/
theorem c10_unknown_status_matches_disconnected (size scale : ℕ)
    (_hsize : 0 < size) (_hscale : scale = 1 ∨ scale = 2 ∨ scale = 3) :
    (∀ status : String,
        status ∉ ["connected", "disconnected", "error", "connecting", "disabled"] →
        create_wifi_icon size status scale = create_wifi_icon size "disconnected" scale) ∧
    create_wifi_icon size "disabled" scale ≠ create_wifi_icon size "disconnected" scale ∧
    (create_wifi_icon size "disabled" scale).cmds.countP (·.isEllipse) = 0 ∧
    (create_wifi_icon size "disconnected" scale).cmds.countP (·.isEllipse) = 1 := by
  refine ⟨?_, ?_, ?_, ?_⟩
  · intro status hmem
    simp only [List.mem_cons, List.not_mem_nil, or_false, not_or] at hmem
    obtain ⟨h1, h2, h3, h4, h5⟩ := hmem
    have hcol : statusColor status = ⟨128, 128, 128, 255⟩ := by
      simp [statusColor, h1, h2, h3, h4]
    have harc : statusArcCount status = 1 := by
      simp [statusArcCount, h1, h2, h3, h4]
    have hcol2 : statusColor "disconnected" = ⟨128, 128, 128, 255⟩ := rfl
    have harc2 : statusArcCount "disconnected" = 1 := rfl
    simp [create_wifi_icon, hcol, harc, hcol2, harc2, h3, h5, List.range'_succ]
  · intro h
    have h2 := congrArg (fun c => c.cmds.length) h
    simp [create_wifi_icon, statusArcCount, List.range'_succ] at h2
  · simp [create_wifi_icon, statusArcCount, List.range'_succ, List.countP_append,
      List.countP_cons, DrawCmd.isEllipse]
  · simp [create_wifi_icon, statusArcCount, List.range'_succ, List.countP_append,
      List.countP_cons, DrawCmd.isEllipse]

/-- Witness for C10 at baseSize 16, scale 1, with the unrecognized status
"unknown". -/
theorem c10_unknown_status_matches_disconnected_witness :
    create_wifi_icon 16 "unknown" 1 = create_wifi_icon 16 "disconnected" 1 ∧
    create_wifi_icon 16 "disabled" 1 ≠ create_wifi_icon 16 "disconnected" 1 :=
  ⟨(c10_unknown_status_matches_disconnected 16 1 (by decide) (Or.inl rfl)).1
      "unknown" (by decide),
   (c10_unknown_status_matches_disconnected 16 1 (by decide) (Or.inl rfl)).2.1⟩

/-- C4: the status-bar set is generated iff `--app-icon-only` is not set and
the app-icon set iff `--status-bar-only` is not set; `--status-bar-only`
alone yields exactly the 48 status-bar files and zero app-icon files (the
two name sets are disjoint), `--app-icon-only` alone exactly the 10 app-icon
files, and with both flags set nothing is generated. -/
theorem c4_selection_logic (status_bar_only app_icon_only : Bool) :
    main_files status_bar_only app_icon_only =
      (if app_icon_only then [] else status_bar_files) ++
      (if status_bar_only then [] else generate_app_icons) ∧
    main_files true false = status_bar_files ∧
    main_files false true = generate_app_icons ∧
    main_files true true = [] ∧
    status_bar_files.length = 48 ∧
    generate_app_icons.length = 10 ∧
    ∀ p ∈ status_bar_files, ∀ q ∈ generate_app_icons, p.1 ≠ q.1 := by
  refine ⟨?_, rfl, rfl, rfl, by decide, by decide, by decide⟩
  cases status_bar_only <;> cases app_icon_only <;> rfl

/-- C3: a default-flag batch run writes exactly these 58 pairwise-distinct
files — the 4 status-bar icon names × 4 base sizes × 3 scale variants (the
@3x variant present because every base size is ≤ 32), plus the app-icon set
of 5 base sizes × 2 scale variants — and every written image has positive
pixel dimensions (so its PNG serialization is non-empty). -/
theorem c3_default_run_files :
    (main_files false false).map Prod.fst =
      ["wifi-connected-16.png", "wifi-connected-16@2x.png", "wifi-connected-16@3x.png",
       "wifi-connected-18.png", "wifi-connected-18@2x.png", "wifi-connected-18@3x.png",
       "wifi-connected-20.png", "wifi-connected-20@2x.png", "wifi-connected-20@3x.png",
       "wifi-connected-22.png", "wifi-connected-22@2x.png", "wifi-connected-22@3x.png",
       "wifi-disconnected-16.png", "wifi-disconnected-16@2x.png", "wifi-disconnected-16@3x.png",
       "wifi-disconnected-18.png", "wifi-disconnected-18@2x.png", "wifi-disconnected-18@3x.png",
       "wifi-disconnected-20.png", "wifi-disconnected-20@2x.png", "wifi-disconnected-20@3x.png",
       "wifi-disconnected-22.png", "wifi-disconnected-22@2x.png", "wifi-disconnected-22@3x.png",
       "wifi-error-16.png", "wifi-error-16@2x.png", "wifi-error-16@3x.png",
       "wifi-error-18.png", "wifi-error-18@2x.png", "wifi-error-18@3x.png",
       "wifi-error-20.png", "wifi-error-20@2x.png", "wifi-error-20@3x.png",
       "wifi-error-22.png", "wifi-error-22@2x.png", "wifi-error-22@3x.png",
       "wifi-connecting-16.png", "wifi-connecting-16@2x.png", "wifi-connecting-16@3x.png",
       "wifi-connecting-18.png", "wifi-connecting-18@2x.png", "wifi-connecting-18@3x.png",
       "wifi-connecting-20.png", "wifi-connecting-20@2x.png", "wifi-connecting-20@3x.png",
       "wifi-connecting-22.png", "wifi-connecting-22@2x.png", "wifi-connecting-22@3x.png",
       "app-icon-16.png", "app-icon-16@2x.png",
       "app-icon-32.png", "app-icon-32@2x.png",
       "app-icon-128.png", "app-icon-128@2x.png",
       "app-icon-256.png", "app-icon-256@2x.png",
       "app-icon-512.png", "app-icon-512@2x.png"] ∧
    (main_files false false).length = 58 ∧
    ((main_files false false).map Prod.fst).Nodup ∧
    ∀ p ∈ main_files false false, 0 < p.2.width ∧ 0 < p.2.height := by
  refine ⟨by decide, by decide, by decide, by decide⟩

/-- The line commands of any rendered icon, in closed form: the two
diagonal strokes of the X overlay when `status == 'error'`, nothing
otherwise. -/
theorem linesOf_create_wifi_icon (size : ℕ) (status : String) (scale : ℕ) :
    linesOf (create_wifi_icon size status scale) =
      if status = "error" then
        [DrawCmd.line
           (((size * scale / 2 : ℕ) : ℚ) + ((size * scale : ℕ) : ℚ) * (1/5)
              - ((size * scale : ℕ) : ℚ) * (3/10) / 2)
           (((size * scale / 2 : ℕ) : ℚ) - ((size * scale : ℕ) : ℚ) * (1/5)
              - ((size * scale : ℕ) : ℚ) * (3/10) / 2)
           (((size * scale / 2 : ℕ) : ℚ) + ((size * scale : ℕ) : ℚ) * (1/5)
              + ((size * scale : ℕ) : ℚ) * (3/10) / 2)
           (((size * scale / 2 : ℕ) : ℚ) - ((size * scale : ℕ) : ℚ) * (1/5)
              + ((size * scale : ℕ) : ℚ) * (3/10) / 2)
           ⟨255, 0, 0, 255⟩ (max 1 (size * scale / 16)),
         DrawCmd.line
           (((size * scale / 2 : ℕ) : ℚ) + ((size * scale : ℕ) : ℚ) * (1/5)
              + ((size * scale : ℕ) : ℚ) * (3/10) / 2)
           (((size * scale / 2 : ℕ) : ℚ) - ((size * scale : ℕ) : ℚ) * (1/5)
              - ((size * scale : ℕ) : ℚ) * (3/10) / 2)
           (((size * scale / 2 : ℕ) : ℚ) + ((size * scale : ℕ) : ℚ) * (1/5)
              - ((size * scale : ℕ) : ℚ) * (3/10) / 2)
           (((size * scale / 2 : ℕ) : ℚ) - ((size * scale : ℕ) : ℚ) * (1/5)
              + ((size * scale : ℕ) : ℚ) * (3/10) / 2)
           ⟨255, 0, 0, 255⟩ (max 1 (size * scale / 16))]
      else [] := by
  simp only [linesOf, create_wifi_icon, List.filter_append]
  have hnil : ∀ l : List DrawCmd, (∀ c ∈ l, c.isLine = false) →
      l.filter (·.isLine) = [] := by
    intro l hl
    exact List.filter_eq_nil_iff.mpr (by intro c hc; simp [hl c hc])
  rw [hnil _ ?ha, hnil _ ?hd, List.nil_append, List.nil_append]
  case ha =>
    intro c hc
    obtain ⟨i, _, rfl⟩ := List.mem_map.mp hc
    rfl
  case hd =>
    intro c hc
    split at hc
    · simp only [List.mem_singleton] at hc
      subst hc; rfl
    · simp at hc
  by_cases herr : status = "error" <;> simp [herr, DrawCmd.isLine]

/-- C7, counterexample to the claimed segment length: at baseSize 10,
scale 1 (actualSize 10) each X segment spans 3 horizontally and 3
vertically, so its squared Euclidean length is 18, while a segment of the
claimed length 0.3 × actualSize = 3 would have squared length 9. -/
theorem c7_length_claim_counterexample :
    (linesOf (create_wifi_icon 10 "error" 1)).map (·.lenSq) = [18, 18] ∧
    ((3 : ℚ) / 10 * ((10 * 1 : ℕ) : ℚ)) ^ 2 = 9 ∧ (18 : ℚ) ≠ 9 := by
  refine ⟨?_, by norm_num, by norm_num⟩
  rw [linesOf_create_wifi_icon]
  norm_num [DrawCmd.lenSq]

/-- C7 (amended): the X overlay is drawn iff status == 'error'; when drawn
it is two diagonal segments, each spanning 0.3 × actualSize horizontally
and 0.3 × actualSize vertically — Euclidean length (0.3 × actualSize) · √2,
i.e. squared length 2 · (0.3 × actualSize)² — forming an X centered at
(center_x + 0.2 × actualSize, center_y − 0.2 × actualSize), stroked in red
with width max(1, actualSize // 16). -/
theorem c7_error_overlay (size scale : ℕ) (status : String)
    (_hsize : 0 < size) (_hscale : scale = 1 ∨ scale = 2 ∨ scale = 3) :
    (status ≠ "error" → linesOf (create_wifi_icon size status scale) = []) ∧
    (status = "error" →
      (linesOf (create_wifi_icon size status scale)).length = 2 ∧
      ∀ cmd ∈ linesOf (create_wifi_icon size status scale),
        cmd.xmid = ((size * scale / 2 : ℕ) : ℚ) + ((size * scale : ℕ) : ℚ) * (1/5) ∧
        cmd.ymid = ((size * scale / 2 : ℕ) : ℚ) - ((size * scale : ℕ) : ℚ) * (1/5) ∧
        cmd.lenSq = 2 * (((size * scale : ℕ) : ℚ) * (3/10)) ^ 2 ∧
        cmd.fillColor = ⟨255, 0, 0, 255⟩ ∧
        cmd.strokeWidth = max 1 (size * scale / 16)) := by
  rw [linesOf_create_wifi_icon]
  constructor
  · intro herr
    rw [if_neg herr]
  · intro herr
    rw [if_pos herr]
    refine ⟨rfl, ?_⟩
    intro cmd hc
    simp only [List.mem_cons, List.not_mem_nil, or_false] at hc
    rcases hc with rfl | rfl <;>
      refine ⟨?_, ?_, ?_, rfl, rfl⟩ <;>
        · simp only [DrawCmd.xmid, DrawCmd.ymid, DrawCmd.lenSq]
          ring

/-- Witness for C7 at baseSize 10, scale 1: no overlay for an unrecognized
status, two overlay segments for status error. -/
theorem c7_error_overlay_witness :
    linesOf (create_wifi_icon 10 "bogus" 1) = [] ∧
    (linesOf (create_wifi_icon 10 "error" 1)).length = 2 :=
  ⟨(c7_error_overlay 10 1 "bogus" (by decide) (Or.inl rfl)).1 (by decide),
   ((c7_error_overlay 10 1 "error" (by decide) (Or.inl rfl)).2 rfl).1⟩

/-- Witness for C4 instantiated at the flag pairs (true, false) and
(true, true). -/
theorem c4_selection_logic_witness :
    main_files true false = status_bar_files ∧ main_files true true = [] :=
  ⟨(c4_selection_logic true false).2.1, (c4_selection_logic true true).2.2.2.1⟩
